import Mathlib

/-!
Verification of the repo_agent service (Python) against its specification.

The development shallowly embeds the two components the spec describes:

* `src/repo_agent/claude.py` — the process-invocation subsystem
  (`ClaudeAgent.call`, `ClaudeAgent._parse_result`, `_write_header`,
  `_write_footer`, `_write_response`).  External effects (spawning the child
  process, wall-clock time, the JSON library) are made explicit inputs:
  the outcome of one spawn is a value of `SpawnOutcome`, elapsed times are
  rationals carried by that outcome, and `json.loads` is an abstract
  `Decoder` parameter mapping a line to an optional parsed event.

* `src/repo_agent/graph.py` — the generate/validate workflow engine
  (`generator_node`, `validator_node`, `should_continue`, the compiled
  LangGraph loop, `run_review_critique`).  The external tool call
  (`call_claude`) is abstracted as an `Oracle` mapping the call record
  (prompt, repo path, task id, node label) to the returned result text.

Python string primitives used by the code (`str.startswith`, `str.strip`,
`str.upper`) are modelled as code-point-level functions on `String.data`.
-/

namespace RepoAgent

/-- Model of Python `s.startswith(pre)`: code-point prefix test. -/
def pystartswith (s pre : String) : Bool :=
  pre.data.isPrefixOf s.data

/-- Model of Python `s.strip()`: drop leading and trailing whitespace. -/
def pystrip (s : String) : String :=
  ⟨((s.data.dropWhile Char.isWhitespace).reverse.dropWhile Char.isWhitespace).reverse⟩

/-- Model of Python `s.upper()` (code-point-wise upper-casing). -/
def pyupper (s : String) : String :=
  ⟨s.data.map Char.toUpper⟩

/-! ## Stream events and result extraction (`claude.py`, `_parse_result`) -/

/-- A parsed stream-json event, as far as `_parse_result` inspects it: a
string-valued field map (`event.get(key)` / `event.get(key, default)`). -/
structure StreamEvent where
  fields : List (String × String)
deriving DecidableEq

/-- Model of Python `dict.get(k)` on a parsed event. -/
def StreamEvent.get (e : StreamEvent) (k : String) : Option String :=
  (e.fields.find? (fun p => p.1 == k)).map (fun p => p.2)

/-- Abstraction of `json.loads` restricted to one line: `none` models a
`json.JSONDecodeError`, `some ev` a successfully parsed JSON object. -/
def Decoder : Type := String → Option StreamEvent

/-- The scanning loop of `ClaudeAgent._parse_result` (claude.py lines
150-159), already running over the reversed line list: strip each line,
skip it when blank or not starting with an opening brace, skip lines the
decoder rejects, and return `event.get("result", "")` for the first parsed
event whose `"type"` equals `"result"`. -/
def scanLines (decode : Decoder) : List String → String
  | [] => ""
  | line :: rest =>
    let l := pystrip line
    if (l == "") || !(pystartswith l "\x7b") then
      scanLines decode rest
    else
      match decode l with
      | none => scanLines decode rest
      | some event =>
        if event.get "type" == some "result" then
          (event.get "result").getD ""
        else
          scanLines decode rest

/-- Model of `ClaudeAgent._parse_result` (claude.py lines 144-162).  The sink content
is `some lines` when the file is readable and `none` when reading raises
(the outer `except Exception: pass` path); the function scans the lines in
reverse order. -/
def parse_result (decode : Decoder) (sink : Option (List String)) : String :=
  match sink with
  | none => ""
  | some lines => scanLines decode lines.reverse

/-- Modelled from the spec: the per-line extraction described in §4.1 — a
line yields a payload exactly when it is non-blank after trimming, starts
with an opening brace, decodes as an event, and that event's discriminator
equals `"result"`; the payload is the event's `"result"` field (empty when
absent).  Used to state that `parse_result` returns the payload of the
first such line from the end. -/
def lineResult? (decode : Decoder) (line : String) : Option String :=
  let l := pystrip line
  if (l == "") || !(pystartswith l "\x7b") then
    none
  else
    match decode l with
    | none => none
    | some event =>
      if event.get "type" == some "result" then
        some ((event.get "result").getD "")
      else
        none

theorem findSome?_cons_none {α β : Type} {f : α → Option β} {a : α} {l : List α}
    (h : f a = none) : (a :: l).findSome? f = l.findSome? f := by
  simp [List.findSome?, h]

theorem findSome?_cons_some {α β : Type} {f : α → Option β} {a : α} {b : β} {l : List α}
    (h : f a = some b) : (a :: l).findSome? f = some b := by
  simp [List.findSome?, h]

theorem findSome?_append_none {α β : Type} {f : α → Option β} {l₁ l₂ : List α}
    (h : ∀ y ∈ l₁, f y = none) : (l₁ ++ l₂).findSome? f = l₂.findSome? f := by
  induction l₁ with
  | nil => simp
  | cons a as ih =>
    have ha : f a = none := h a (by simp)
    rw [List.cons_append, findSome?_cons_none ha]
    exact ih (fun y hy => h y (by simp [hy]))

/-- The scanning loop returns exactly the first per-line payload. -/
theorem scanLines_eq_findSome (decode : Decoder) (ls : List String) :
    scanLines decode ls = (ls.findSome? (lineResult? decode)).getD "" := by
  induction ls with
  | nil => rfl
  | cons l rest ih =>
    by_cases hb : ((pystrip l == "") || !(pystartswith (pystrip l) "\x7b")) = true
    · have hr : lineResult? decode l = none := by
        simp only [lineResult?]
        rw [if_pos hb]
      rw [findSome?_cons_none hr]
      simp only [scanLines]
      rw [if_pos hb]
      exact ih
    · cases hd : decode (pystrip l) with
      | none =>
        have hr : lineResult? decode l = none := by
          simp only [lineResult?]
          rw [if_neg hb, hd]
        rw [findSome?_cons_none hr]
        simp only [scanLines]
        rw [if_neg hb, hd]
        exact ih
      | some event =>
        by_cases ht : (event.get "type" == some "result") = true
        · have hr : lineResult? decode l = some ((event.get "result").getD "") := by
            simp only [lineResult?]
            rw [if_neg hb, hd]
            dsimp only
            rw [if_pos ht]
          rw [findSome?_cons_some hr]
          simp only [scanLines]
          rw [if_neg hb, hd]
          dsimp only
          rw [if_pos ht]
          rfl
        · have hr : lineResult? decode l = none := by
            simp only [lineResult?]
            rw [if_neg hb, hd]
            dsimp only
            rw [if_neg ht]
          rw [findSome?_cons_none hr]
          simp only [scanLines]
          rw [if_neg hb, hd]
          dsimp only
          rw [if_neg ht]
          exact ih

/-! ## The invocation operation (`claude.py`, `ClaudeAgent.call`) -/

/-- The read-once configuration of the singleton agent (`ClaudeAgent.__init__`,
claude.py lines 39-46): binary path, default max turns, default timeout. -/
structure AgentConfig where
  claude_path : String
  max_turns : Nat
  timeout : Nat
deriving DecidableEq

/-- The footer block appended by `_write_footer` (claude.py lines 173-179):
either the timeout marker `[TIMEOUT after {d}s]` or the normal completion
line `[Completed in {d}s, exit: {e}]`.  The float formatting of the duration
is kept structural. -/
inductive FooterKind where
  | timeoutMark (duration : Rat)
  | completed (duration : Rat) (exit_code : Int)
deriving DecidableEq

/-- One framing block appended to the per-task sink by `call`: the header
(`_write_header`), a footer (`_write_footer`), or the parsed-response
trailer (`_write_response`).  The raw child output is streamed into the
sink by the OS, not written by `call`, so it is not a `SinkWrite`. -/
inductive SinkWrite where
  | header (node repo_path prompt : String)
  | footer (k : FooterKind)
  | response (text : String)
deriving DecidableEq

/-- The outcome of the spawn/communicate section of `call` (claude.py lines
100-110), with the wall-clock durations measured by the code made explicit:

* `fileNotFound` — a `FileNotFoundError` escaped the `try` block (the tool
  binary is missing at the configured path; no child was spawned);
* `timedOut elapsed` — `communicate` raised `subprocess.TimeoutExpired`
  and `time.time() - start_time` evaluated to `elapsed`;
* `completed stderr exit_code elapsed sink` — the child exited with
  `exit_code`, captured standard error `stderr`, elapsed time `elapsed`,
  and the sink content readable afterwards is `sink` (`none` when reading
  it back raises);
* `otherFault msg elapsed` — any other exception, with message `msg`. -/
inductive SpawnOutcome where
  | fileNotFound
  | timedOut (elapsed : Rat)
  | completed (stderr : String) (exit_code : Int) (elapsed : Rat) (sink : Option (List String))
  | otherFault (msg : String) (elapsed : Rat)

/-- Python's `override or default_` on optional integer arguments
(claude.py lines 73-74): `None` and `0` are falsy, so both fall back to
the instance default. -/
def resolveOverride (override : Option Nat) (default_ : Nat) : Nat :=
  match override with
  | none => default_
  | some n => if n = 0 then default_ else n

/-- Model of `ClaudeAgent.call` (claude.py lines 50-142).  Returns the
`(result_text, duration_seconds, exit_code)` triple together with the list
of framing blocks the call appended to the sink.  `task_id` and `max_turns`
only feed logging and the child's command line, which the model keeps but
does not inspect. -/
def ClaudeAgent.call (cfg : AgentConfig) (decode : Decoder)
    (prompt repo_path task_id node : String)
    (max_turns? timeout? : Option Nat) (w : SpawnOutcome) :
    (String × Rat × Int) × List SinkWrite :=
  let _max_turns := resolveOverride max_turns? cfg.max_turns
  let timeout := resolveOverride timeout? cfg.timeout
  let _ := task_id
  match w with
  | .fileNotFound =>
      (("Error: Claude CLI not found at " ++ cfg.claude_path, 0, -1),
       [SinkWrite.header node repo_path prompt])
  | .timedOut elapsed =>
      (("Error: Timed out after " ++ toString timeout ++ "s", elapsed, -1),
       [SinkWrite.header node repo_path prompt,
        SinkWrite.footer (FooterKind.timeoutMark elapsed)])
  | .otherFault msg elapsed =>
      (("Error: " ++ msg, elapsed, -1),
       [SinkWrite.header node repo_path prompt])
  | .completed stderr exit_code elapsed sink =>
      let parsed := parse_result decode sink
      let output :=
        if exit_code ≠ 0 ∧ parsed = "" then
          if stderr ≠ "" then "Error: " ++ pystrip stderr else "Unknown error"
        else parsed
      ((output, elapsed, exit_code),
       [SinkWrite.header node repo_path prompt,
        SinkWrite.footer (FooterKind.completed elapsed exit_code),
        SinkWrite.response output])

/-! ## The generate/validate workflow engine (`graph.py`) -/

/-- The `AgentState` TypedDict (graph.py lines 21-30).  All keys are seeded
by `run_review_critique`, so they are total fields here; `iteration` is a
natural number (seeded with 1 and only ever incremented). -/
structure AgentState where
  task_id : String
  query : String
  repo_path : String
  answer : String
  validation : String
  validation_status : String
  feedback : String
  iteration : Nat
  max_iterations : Nat
deriving DecidableEq

/-- The argument tuple of one `call_claude(prompt, repo_path, task_id, node)`
invocation made by a graph node. -/
structure CallRecord where
  prompt : String
  repo_path : String
  task_id : String
  node : String
deriving DecidableEq

/-- Abstraction of the external tool: maps each invocation's arguments to
the result text it returns.  (Within one run all call records are distinct
— the node label carries the iteration — so no generality is lost.) -/
def Oracle : Type := CallRecord → String

/-- The prompt built by `generator_node` (graph.py lines 41-53): the
feedback-quoting regeneration prompt when `feedback` is truthy (non-empty),
the first-generation expert prompt otherwise. -/
def generatorPrompt (query feedback : String) : String :=
  if feedback ≠ "" then
    "Previous answer was marked as needing improvement.\n\nFeedback: " ++ feedback ++
      "\n\nOriginal question: " ++ query ++
      "\n\nPlease provide an improved, complete answer addressing the feedback."
  else
    "You are a principle engineer who has expertise in understanding code fast and to answer queries. " ++
      "With your expertise please answer this query: " ++ query

/-- The invocation made by `generator_node` (graph.py line 55): prompt,
working directory = repository path, node label `generator_v{iteration}`. -/
def generator_call (s : AgentState) : CallRecord :=
  { prompt := generatorPrompt s.query s.feedback
    repo_path := s.repo_path
    task_id := s.task_id
    node := "generator_v" ++ toString s.iteration }

/-- Model of `generator_node` (graph.py lines 33-59): stores the invocation's result
text as the new `answer`; no other key is returned, so the LangGraph merge
leaves the rest of the state unchanged. -/
def generator_node (oracle : Oracle) (s : AgentState) : AgentState :=
  { s with answer := oracle (generator_call s) }

/-- The prompt built by `validator_node` (graph.py lines 69-86). -/
def validatorPrompt (query answer : String) : String :=
  "You are validating an answer about a codebase.\n\nQuestion: " ++ query ++
    "\n\nAnswer to validate:\n" ++ answer ++
    "\n\nInstructions:\n1. Check if the answer correctly addresses the question\n" ++
    "2. Verify code references are accurate (if any)\n3. Check for completeness\n\n" ++
    "Respond with EXACTLY one of these formats:\n" ++
    "- \"VALID\" - if the answer is correct and complete\n" ++
    "- \"INVALID: <specific issues>\" - if there are factual errors\n" ++
    "- \"PARTIAL: <what's missing>\" - if partially correct but incomplete\n\n" ++
    "Start your response with VALID, INVALID, or PARTIAL."

/-- The invocation made by `validator_node` (graph.py line 88): node label
`validator_v{iteration}`, working directory = repository path. -/
def validator_call (s : AgentState) : CallRecord :=
  { prompt := validatorPrompt s.query s.answer
    repo_path := s.repo_path
    task_id := s.task_id
    node := "validator_v" ++ toString s.iteration }

/-- The verdict parser inside `validator_node` (graph.py lines 90-104):
upper-case the stripped response, test the three leading tokens in order,
and fail open to `("VALID", "")` when none matches. -/
def parseValidation (validation : String) : String × String :=
  if pystartswith (pyupper (pystrip validation)) "VALID" then ("VALID", "")
  else if pystartswith (pyupper (pystrip validation)) "INVALID" then ("INVALID", validation)
  else if pystartswith (pyupper (pystrip validation)) "PARTIAL" then ("PARTIAL", validation)
  else ("VALID", "")

/-- Model of `validator_node` (graph.py lines 62-116): runs the validator
invocation, parses the verdict, and increments `iteration` exactly when the
parsed status is not `"VALID"`. -/
def validator_node (oracle : Oracle) (s : AgentState) : AgentState :=
  let validation := oracle (validator_call s)
  let parsed := parseValidation validation
  { s with
      validation := validation
      validation_status := parsed.1
      feedback := parsed.2
      iteration := if parsed.1 ≠ "VALID" then s.iteration + 1 else s.iteration }

/-- Model of `should_continue` (graph.py lines 119-131): `"end"` on a VALID verdict
or once `iteration` has reached `max_iterations`, else `"generator"`. -/
def should_continue (s : AgentState) : String :=
  if s.validation_status = "VALID" then "end"
  else if s.iteration ≥ s.max_iterations then "end"
  else "generator"

/-- One round of the compiled graph (`create_graph`, graph.py lines
134-154): the `generator → validator` edge pair. -/
def step (oracle : Oracle) (s : AgentState) : AgentState :=
  validator_node oracle (generator_node oracle s)

theorem step_max_iterations (oracle : Oracle) (s : AgentState) :
    (step oracle s).max_iterations = s.max_iterations := by
  simp [step, generator_node, validator_node]

theorem step_validation_status (oracle : Oracle) (s : AgentState) :
    (step oracle s).validation_status
      = (parseValidation (oracle (validator_call (generator_node oracle s)))).1 := by
  simp [step, validator_node]

theorem step_iteration (oracle : Oracle) (s : AgentState) :
    (step oracle s).iteration
      = if (step oracle s).validation_status ≠ "VALID" then s.iteration + 1
        else s.iteration := by
  simp only [step, generator_node, validator_node]

theorem step_iteration_le (oracle : Oracle) (s : AgentState) :
    s.iteration ≤ (step oracle s).iteration := by
  rw [step_iteration]
  split <;> omega

theorem step_iteration_le_succ (oracle : Oracle) (s : AgentState) :
    (step oracle s).iteration ≤ s.iteration + 1 := by
  rw [step_iteration]
  split <;> omega

theorem should_continue_eq_end_iff (s : AgentState) :
    should_continue s = "end"
      ↔ (s.validation_status = "VALID" ∨ s.max_iterations ≤ s.iteration) := by
  unfold should_continue
  split
  · simp [*]
  · split
    · simp [*]
    · simp [*]

theorem should_continue_of_ne_end {s : AgentState}
    (h : ¬ should_continue s = "end") : should_continue s = "generator" := by
  unfold should_continue at h ⊢
  split at h
  · simp at h
  · split at h
    · simp at h
    · simp [*]

theorem step_measure_lt {oracle : Oracle} {s : AgentState}
    (h : ¬ should_continue (step oracle s) = "end") :
    (step oracle s).max_iterations - (step oracle s).iteration
      < s.max_iterations - s.iteration := by
  rw [should_continue_eq_end_iff] at h
  push_neg at h
  obtain ⟨hv, hlt⟩ := h
  have hit : (step oracle s).iteration = s.iteration + 1 := by
    rw [step_iteration, if_pos hv]
  rw [step_max_iterations] at hlt ⊢
  omega

/-- The loop of the compiled graph: run one round, stop when
`should_continue` says `"end"`, otherwise re-enter the generator with the
updated state.  (`review_critique_graph.invoke` with the given state.) -/
def runGraph (oracle : Oracle) (s : AgentState) : AgentState :=
  if h : should_continue (step oracle s) = "end" then step oracle s
  else runGraph oracle (step oracle s)
termination_by s.max_iterations - s.iteration
decreasing_by exact step_measure_lt h

/-- The list of states at which successive rounds of the loop start (the
first element is the seed state; one round = one generator invocation
followed by one validator invocation). -/
def roundStarts (oracle : Oracle) (s : AgentState) : List AgentState :=
  if h : should_continue (step oracle s) = "end" then [s]
  else s :: roundStarts oracle (step oracle s)
termination_by s.max_iterations - s.iteration
decreasing_by exact step_measure_lt h

/-- The invocations executed by a run, in order. -/
def runCalls (oracle : Oracle) (s : AgentState) : List CallRecord :=
  ((roundStarts oracle s).map
    (fun t => [generator_call t, validator_call (generator_node oracle t)])).flatten

/-- The seed state of `run_review_critique` (graph.py lines 168-178). -/
def initState (query repo_path task_id : String) : AgentState :=
  { task_id := task_id
    query := query
    repo_path := repo_path
    answer := ""
    validation := ""
    validation_status := ""
    feedback := ""
    iteration := 1
    max_iterations := 3 }

/-- Model of `run_review_critique` (graph.py lines 160-188): invoke the compiled
graph on the seed state and return the final `answer`.  (The top-level
`except` block never fires in the model: every invocation returns a string.) -/
def run_review_critique (oracle : Oracle) (query repo_path task_id : String) : String :=
  (runGraph oracle (initState query repo_path task_id)).answer

/-- The states observed immediately after each VALIDATE step of a run. -/
def traceAfters (oracle : Oracle) (s : AgentState) : List AgentState :=
  (roundStarts oracle s).map (step oracle)

theorem roundStarts_ne_nil (oracle : Oracle) (s : AgentState) :
    roundStarts oracle s ≠ [] := by
  rw [roundStarts]
  split <;> simp

theorem getLastD_of_ne_nil {α : Type} {l : List α} (h : l ≠ []) (a b : α) :
    l.getLastD a = l.getLastD b := by
  cases l with
  | nil => exact absurd rfl h
  | cons x xs => rw [List.getLastD_cons, List.getLastD_cons]

/-- The final state of the loop is one round applied to the last round start. -/
theorem runGraph_eq_last (oracle : Oracle) (s : AgentState) :
    runGraph oracle s = step oracle ((roundStarts oracle s).getLastD s) := by
  induction s using roundStarts.induct oracle with
  | case1 s h =>
    rw [runGraph, roundStarts]
    simp [h]
  | case2 s h ih =>
    rw [runGraph, roundStarts]
    rw [dif_neg h, dif_neg h]
    rw [List.getLastD_cons]
    rw [ih]
    congr 1
    exact getLastD_of_ne_nil (roundStarts_ne_nil oracle (step oracle s)) _ _

/-- Iteration bookkeeping: the state after the `k`-th VALIDATE carries
iteration = seed iteration + number of non-VALID verdicts so far. -/
theorem traceAfters_iteration (oracle : Oracle) (s : AgentState) :
    ∀ k t, (traceAfters oracle s).get? k = some t →
      t.iteration = s.iteration + ((traceAfters oracle s).take (k+1)).countP
          (fun u => u.validation_status != "VALID") := by
  induction s using roundStarts.induct oracle with
  | case1 s h =>
    have hr : roundStarts oracle s = [s] := by rw [roundStarts]; simp [h]
    have htr : traceAfters oracle s = [step oracle s] := by simp [traceAfters, hr]
    intro k t ht
    rw [htr] at ht ⊢
    cases k with
    | zero =>
      simp only [List.get?_cons_zero, Option.some_inj] at ht
      subst ht
      simp only [List.take_succ_cons, List.take_nil, List.countP_cons, List.countP_nil]
      rw [step_iteration]
      by_cases hv : (step oracle s).validation_status = "VALID" <;> simp [hv]
    | succ j => simp at ht
  | case2 s h ih =>
    have hr : roundStarts oracle s = s :: roundStarts oracle (step oracle s) := by
      rw [roundStarts]; simp [h]
    have htr : traceAfters oracle s
        = step oracle s :: traceAfters oracle (step oracle s) := by
      simp [traceAfters, hr]
    intro k t ht
    rw [htr] at ht ⊢
    cases k with
    | zero =>
      simp only [List.get?_cons_zero, Option.some_inj] at ht
      subst ht
      simp only [List.take_succ_cons, List.take_zero, List.countP_cons, List.countP_nil]
      rw [step_iteration]
      by_cases hv : (step oracle s).validation_status = "VALID" <;> simp [hv]
    | succ j =>
      simp only [List.get?_cons_succ] at ht
      have hj := ih j t ht
      simp only [List.take_succ_cons, List.countP_cons]
      rw [hj, step_iteration]
      by_cases hv : (step oracle s).validation_status = "VALID" <;>
        simp [hv] <;> omega

/-- Bound bookkeeping: entering the loop strictly below the bound, every
round start stays strictly below it and every post-VALIDATE state stays at
or below it. -/
theorem roundStarts_iter_lt (oracle : Oracle) (s : AgentState) :
    s.iteration < s.max_iterations →
      (∀ t ∈ roundStarts oracle s, t.iteration < s.max_iterations)
      ∧ (∀ t ∈ traceAfters oracle s, t.iteration ≤ s.max_iterations) := by
  induction s using roundStarts.induct oracle with
  | case1 s h =>
    intro hs
    have hr : roundStarts oracle s = [s] := by rw [roundStarts]; simp [h]
    constructor
    · intro t ht
      rw [hr] at ht
      simp at ht
      subst ht
      exact hs
    · intro t ht
      simp only [traceAfters, hr, List.map_cons, List.map_nil] at ht
      simp at ht
      subst ht
      have := step_iteration_le_succ oracle s
      omega
  | case2 s h ih =>
    intro hs
    have hr : roundStarts oracle s = s :: roundStarts oracle (step oracle s) := by
      rw [roundStarts]; simp [h]
    have hcont := h
    rw [should_continue_eq_end_iff] at hcont
    push_neg at hcont
    obtain ⟨hv, hlt⟩ := hcont
    rw [step_max_iterations] at hlt
    have ih' := ih hlt
    rw [step_max_iterations] at ih'
    constructor
    · intro t ht
      rw [hr] at ht
      rcases List.mem_cons.mp ht with h1 | h1
      · subst h1; exact hs
      · exact ih'.1 t h1
    · intro t ht
      simp only [traceAfters, hr, List.map_cons] at ht
      rcases List.mem_cons.mp ht with h1 | h1
      · subst h1
        have := step_iteration_le_succ oracle s
        omega
      · exact ih'.2 t (by simpa [traceAfters] using h1)

/-- Once the iteration has reached the bound, the loop runs exactly one
more round and stops. -/
theorem roundStarts_single (oracle : Oracle) (s : AgentState)
    (h : s.max_iterations ≤ s.iteration) : roundStarts oracle s = [s] := by
  have hend : should_continue (step oracle s) = "end" := by
    rw [should_continue_eq_end_iff]
    right
    rw [step_max_iterations]
    have := step_iteration_le oracle s
    omega
  rw [roundStarts]
  simp [hend]

/-! ## Leading-token facts about the verdict parser -/

theorem isPrefixOf_head {c : Char} {p l : List Char}
    (h : List.isPrefixOf (c :: p) l = true) : ∃ as, l = c :: as := by
  cases l with
  | nil => simp [List.isPrefixOf] at h
  | cons a as =>
    simp [List.isPrefixOf] at h
    exact ⟨as, by rw [h.1]⟩

theorem isPrefixOf_head_ne {c d : Char} {p q l : List Char} (hne : c ≠ d)
    (h : List.isPrefixOf (c :: p) l = true) :
    List.isPrefixOf (d :: q) l = false := by
  obtain ⟨as, ha⟩ := isPrefixOf_head h
  rw [ha]
  simp [List.isPrefixOf]
  intro hdc
  exact absurd hdc.symm hne

theorem pystartswith_INVALID_not_VALID {u : String}
    (h : pystartswith u "INVALID" = true) : pystartswith u "VALID" = false := by
  have h' : List.isPrefixOf ('I' :: ['N', 'V', 'A', 'L', 'I', 'D']) u.data = true := h
  exact isPrefixOf_head_ne (p := ['N', 'V', 'A', 'L', 'I', 'D'])
    (q := ['A', 'L', 'I', 'D']) (by decide) h'

theorem pystartswith_PARTIAL_not_VALID {u : String}
    (h : pystartswith u "PARTIAL" = true) : pystartswith u "VALID" = false := by
  have h' : List.isPrefixOf ('P' :: ['A', 'R', 'T', 'I', 'A', 'L']) u.data = true := h
  exact isPrefixOf_head_ne (p := ['A', 'R', 'T', 'I', 'A', 'L'])
    (q := ['A', 'L', 'I', 'D']) (by decide) h'

theorem pystartswith_PARTIAL_not_INVALID {u : String}
    (h : pystartswith u "PARTIAL" = true) : pystartswith u "INVALID" = false := by
  have h' : List.isPrefixOf ('P' :: ['A', 'R', 'T', 'I', 'A', 'L']) u.data = true := h
  exact isPrefixOf_head_ne (p := ['A', 'R', 'T', 'I', 'A', 'L'])
    (q := ['N', 'V', 'A', 'L', 'I', 'D']) (by decide) h'

theorem parseValidation_of_VALID {v : String}
    (h : pystartswith (pyupper (pystrip v)) "VALID" = true) :
    parseValidation v = ("VALID", "") := by
  unfold parseValidation
  rw [if_pos h]

theorem parseValidation_of_INVALID {v : String}
    (h : pystartswith (pyupper (pystrip v)) "INVALID" = true) :
    parseValidation v = ("INVALID", v) := by
  have h1 : ¬ pystartswith (pyupper (pystrip v)) "VALID" = true := by
    simp [pystartswith_INVALID_not_VALID h]
  unfold parseValidation
  rw [if_neg h1, if_pos h]

theorem parseValidation_of_PARTIAL {v : String}
    (h : pystartswith (pyupper (pystrip v)) "PARTIAL" = true) :
    parseValidation v = ("PARTIAL", v) := by
  have h1 : ¬ pystartswith (pyupper (pystrip v)) "VALID" = true := by
    simp [pystartswith_PARTIAL_not_VALID h]
  have h2 : ¬ pystartswith (pyupper (pystrip v)) "INVALID" = true := by
    simp [pystartswith_PARTIAL_not_INVALID h]
  unfold parseValidation
  rw [if_neg h1, if_neg h2, if_pos h]

theorem parseValidation_of_other {v : String}
    (h1 : pystartswith (pyupper (pystrip v)) "VALID" = false)
    (h2 : pystartswith (pyupper (pystrip v)) "INVALID" = false)
    (h3 : pystartswith (pyupper (pystrip v)) "PARTIAL" = false) :
    parseValidation v = ("VALID", "") := by
  unfold parseValidation
  rw [if_neg (by simp [h1]), if_neg (by simp [h2]), if_neg (by simp [h3])]

theorem parseValidation_status_cases (v : String) :
    (parseValidation v).1 = "VALID" ∨ (parseValidation v).1 = "INVALID"
      ∨ (parseValidation v).1 = "PARTIAL" := by
  unfold parseValidation
  split
  · left; rfl
  · split
    · right; left; rfl
    · split
      · right; right; rfl
      · left; rfl

theorem parseValidation_feedback_of_valid (v : String) :
    (parseValidation v).1 = "VALID" → (parseValidation v).2 = "" := by
  unfold parseValidation
  split
  · intro _; rfl
  · split
    · intro h; simp at h
    · split
      · intro h; simp at h
      · intro _; rfl

theorem parseValidation_feedback_of_not_valid (v : String) :
    (parseValidation v).1 ≠ "VALID" → (parseValidation v).2 = v ∧ v ≠ "" := by
  unfold parseValidation
  split
  · intro h; simp at h
  · next h1 =>
    split
    · next h2 =>
      intro _
      refine ⟨rfl, ?_⟩
      intro hv
      subst hv
      rw [show pystartswith (pyupper (pystrip "")) "INVALID" = false by decide] at h2
      simp at h2
    · next h2 =>
      split
      · next h3 =>
        intro _
        refine ⟨rfl, ?_⟩
        intro hv
        subst hv
        rw [show pystartswith (pyupper (pystrip "")) "PARTIAL" = false by decide] at h3
        simp at h3
      · intro h; simp at h

/-! ## Remaining structural helpers -/

theorem validator_node_iteration (o : Oracle) (s : AgentState) :
    (validator_node o s).iteration
      = if (validator_node o s).validation_status ≠ "VALID" then s.iteration + 1
        else s.iteration := by
  simp only [validator_node]

theorem validator_node_answer (o : Oracle) (s : AgentState) :
    (validator_node o s).answer = s.answer := by
  simp [validator_node]

theorem step_answer (oracle : Oracle) (s : AgentState) :
    (step oracle s).answer = oracle (generator_call s) := by
  simp [step, validator_node, generator_node]

theorem getLastD_mem {α : Type} {l : List α} (h : l ≠ []) (d : α) :
    l.getLastD d ∈ l := by
  rw [List.getLastD_eq_getLast?, List.getLast?_eq_getLast l h]
  simp only [Option.getD_some]
  exact List.getLast_mem h

/-! ## Claims about the workflow engine -/

/-- C1: for every workflow run, the iteration counter starts at 1 and is
increased by exactly 1 by the VALIDATE step if and only if the parsed
validation status is not VALID; it is left unchanged when the status is
VALID.  Equivalently, after any prefix of a run, iteration = 1 + (number of
non-VALID verdicts so far). -/
theorem claim_C1 (oracle : Oracle) (query repo_path task_id : String) :
    (initState query repo_path task_id).iteration = 1
    ∧ (∀ (o : Oracle) (s : AgentState),
        ((validator_node o s).validation_status ≠ "VALID"
            → (validator_node o s).iteration = s.iteration + 1)
        ∧ ((validator_node o s).validation_status = "VALID"
            → (validator_node o s).iteration = s.iteration))
    ∧ (∀ k (hk : k < (traceAfters oracle (initState query repo_path task_id)).length),
        ((traceAfters oracle (initState query repo_path task_id)).get ⟨k, hk⟩).iteration
          = 1 + ((traceAfters oracle (initState query repo_path task_id)).take (k+1)).countP
              (fun u => u.validation_status != "VALID")) := by
  refine ⟨rfl, ?_, ?_⟩
  · intro o s
    constructor
    · intro h
      rw [validator_node_iteration, if_pos h]
    · intro h
      rw [validator_node_iteration, if_neg (by simp [h])]
  · intro k hk
    have h := traceAfters_iteration oracle (initState query repo_path task_id) k
      ((traceAfters oracle (initState query repo_path task_id)).get ⟨k, hk⟩)
      (List.get?_eq_get hk)
    rw [h]
    simp [initState]

/-- C2: immediately after a VALIDATE step the workflow terminates iff the
status is VALID or the updated iteration has reached the max-iterations
bound, and otherwise re-enters GENERATE with the updated state; with
max-iterations = 1 the run executes exactly one GENERATE and one VALIDATE
and never loops back. -/
theorem claim_C2 :
    (∀ s : AgentState,
        (should_continue s = "end"
          ↔ (s.validation_status = "VALID" ∨ s.iteration ≥ s.max_iterations))
        ∧ (should_continue s ≠ "end" → should_continue s = "generator"))
    ∧ (∀ (oracle : Oracle) (s : AgentState),
        runGraph oracle s
          = if should_continue (step oracle s) = "end" then step oracle s
            else runGraph oracle (step oracle s))
    ∧ (∀ (oracle : Oracle) (s : AgentState),
        s.iteration = 1 → s.max_iterations = 1 →
          roundStarts oracle s = [s]
          ∧ runCalls oracle s
              = [generator_call s, validator_call (generator_node oracle s)]) := by
  refine ⟨?_, ?_, ?_⟩
  · intro s
    constructor
    · rw [should_continue_eq_end_iff]
    · exact should_continue_of_ne_end
  · intro oracle s
    rw [runGraph]
    exact dite_eq_ite
  · intro oracle s h1 h2
    have hr : roundStarts oracle s = [s] := roundStarts_single oracle s (by omega)
    refine ⟨hr, ?_⟩
    unfold runCalls
    rw [hr]
    simp

/-- C3: the answer returned by the run operation equals the GENERATE
output of the last executed iteration (the validator never modifies the
answer field), and the iteration counter never exceeds the max-iterations
bound (3 for `run_review_critique`) at any point in the run, including in
the final state. -/
theorem claim_C3 (oracle : Oracle) (query repo_path task_id : String) :
    run_review_critique oracle query repo_path task_id
        = oracle (generator_call
            ((roundStarts oracle (initState query repo_path task_id)).getLastD
              (initState query repo_path task_id)))
    ∧ (∀ (o : Oracle) (s : AgentState), (validator_node o s).answer = s.answer)
    ∧ (∀ t ∈ roundStarts oracle (initState query repo_path task_id), t.iteration ≤ 3)
    ∧ (∀ t ∈ traceAfters oracle (initState query repo_path task_id), t.iteration ≤ 3)
    ∧ (runGraph oracle (initState query repo_path task_id)).iteration ≤ 3 := by
  have hmax3 : (initState query repo_path task_id).max_iterations = 3 := rfl
  have hbounds := roundStarts_iter_lt oracle (initState query repo_path task_id)
    (by simp [initState])
  refine ⟨?_, validator_node_answer, ?_, ?_, ?_⟩
  · unfold run_review_critique
    rw [runGraph_eq_last, step_answer]
  · intro t ht
    have := hbounds.1 t ht
    omega
  · intro t ht
    have := hbounds.2 t ht
    omega
  · rw [runGraph_eq_last]
    have hmem : (roundStarts oracle (initState query repo_path task_id)).getLastD
        (initState query repo_path task_id)
        ∈ roundStarts oracle (initState query repo_path task_id) :=
      getLastD_mem (roundStarts_ne_nil oracle _) _
    have := hbounds.2 _ (List.mem_map_of_mem _ hmem)
    omega

/-- C4: the VALIDATE parser is case-insensitive on the leading token of
the stripped response — VALID → ("VALID", ""), INVALID → ("INVALID", full
text), PARTIAL → ("PARTIAL", full text), anything else fails open to
("VALID", ""); "valid" in any case maps to VALID with empty feedback;
feedback is non-empty only when the status is non-VALID and is overwritten
(never accumulated) by each validation. -/
theorem claim_C4 :
    (∀ v : String, pystartswith (pyupper (pystrip v)) "VALID" = true
        → parseValidation v = ("VALID", ""))
    ∧ (∀ v : String, pystartswith (pyupper (pystrip v)) "INVALID" = true
        → parseValidation v = ("INVALID", v))
    ∧ (∀ v : String, pystartswith (pyupper (pystrip v)) "PARTIAL" = true
        → parseValidation v = ("PARTIAL", v))
    ∧ (∀ v : String,
        pystartswith (pyupper (pystrip v)) "VALID" = false
        → pystartswith (pyupper (pystrip v)) "INVALID" = false
        → pystartswith (pyupper (pystrip v)) "PARTIAL" = false
        → parseValidation v = ("VALID", ""))
    ∧ parseValidation "valid" = ("VALID", "")
    ∧ parseValidation "VaLiD" = ("VALID", "")
    ∧ (∀ v : String, (parseValidation v).1 ≠ "VALID"
        → (parseValidation v).2 = v ∧ v ≠ "")
    ∧ (∀ v : String, (parseValidation v).1 = "VALID" → (parseValidation v).2 = "")
    ∧ (∀ (o : Oracle) (s : AgentState) (f : String),
        (validator_node o { s with feedback := f }).feedback
          = (validator_node o s).feedback) := by
  refine ⟨fun v h => parseValidation_of_VALID h,
          fun v h => parseValidation_of_INVALID h,
          fun v h => parseValidation_of_PARTIAL h,
          fun v h1 h2 h3 => parseValidation_of_other h1 h2 h3,
          by decide, by decide,
          parseValidation_feedback_of_not_valid,
          parseValidation_feedback_of_valid,
          ?_⟩
  intro o s f
  simp [validator_node, validator_call, validatorPrompt]

/-- C9: the GENERATE prompt embeds the pending feedback verbatim together
with the original query (or frames the task as an expert answering the
query directly when no feedback is pending), the invocation uses node
label `generator_v{iteration}` and the repository path as working
directory; after validator response "INVALID: wrong function name" on
iteration 1 with max-iterations 3, iteration becomes 2, feedback equals
that full string, and the next GENERATE prompt embeds that feedback plus
the original query. -/
theorem claim_C9 :
    (∀ s : AgentState, s.feedback ≠ "" →
        (generator_call s).prompt
          = "Previous answer was marked as needing improvement.\n\nFeedback: "
              ++ s.feedback ++ "\n\nOriginal question: " ++ s.query
              ++ "\n\nPlease provide an improved, complete answer addressing the feedback."
        ∧ (∃ a b, (generator_call s).prompt = a ++ s.feedback ++ b)
        ∧ (∃ a b, (generator_call s).prompt = a ++ s.query ++ b))
    ∧ (∀ s : AgentState, s.feedback = "" →
        (generator_call s).prompt
          = "You are a principle engineer who has expertise in understanding code fast and to answer queries. With your expertise please answer this query: "
              ++ s.query)
    ∧ (∀ s : AgentState,
        (generator_call s).node = "generator_v" ++ toString s.iteration
        ∧ (generator_call s).repo_path = s.repo_path)
    ∧ (∀ (oracle : Oracle) (s : AgentState),
        s.iteration = 1 → s.max_iterations = 3 →
        oracle (validator_call (generator_node oracle s))
            = "INVALID: wrong function name" →
          (step oracle s).iteration = 2
          ∧ (step oracle s).feedback = "INVALID: wrong function name"
          ∧ should_continue (step oracle s) = "generator"
          ∧ (∃ a b, (generator_call (step oracle s)).prompt
              = a ++ "INVALID: wrong function name" ++ b)
          ∧ (∃ a b, (generator_call (step oracle s)).prompt = a ++ s.query ++ b)) := by
  have hparse : parseValidation "INVALID: wrong function name"
      = ("INVALID", "INVALID: wrong function name") := by decide
  refine ⟨?_, ?_, ?_, ?_⟩
  · intro s h
    have hp : (generator_call s).prompt
        = "Previous answer was marked as needing improvement.\n\nFeedback: "
            ++ s.feedback ++ "\n\nOriginal question: " ++ s.query
            ++ "\n\nPlease provide an improved, complete answer addressing the feedback." := by
      simp [generator_call, generatorPrompt, h]
    refine ⟨hp, ?_, ?_⟩
    · exact ⟨"Previous answer was marked as needing improvement.\n\nFeedback: ",
        "\n\nOriginal question: " ++ s.query
          ++ "\n\nPlease provide an improved, complete answer addressing the feedback.",
        by simp only [hp, String.append_assoc]⟩
    · exact ⟨"Previous answer was marked as needing improvement.\n\nFeedback: "
          ++ s.feedback ++ "\n\nOriginal question: ",
        "\n\nPlease provide an improved, complete answer addressing the feedback.",
        by simp only [hp, String.append_assoc]⟩
  · intro s h
    simp [generator_call, generatorPrompt, h]
  · intro s
    exact ⟨rfl, rfl⟩
  · intro oracle s h1 h3 ho
    have hstep : step oracle s = { generator_node oracle s with
        validation := "INVALID: wrong function name"
        validation_status := "INVALID"
        feedback := "INVALID: wrong function name"
        iteration := s.iteration + 1 } := by
      simp only [step, validator_node, ho, hparse]
      simp [generator_node]
    have hit : (step oracle s).iteration = 2 := by rw [hstep]; simp [generator_node]; omega
    have hfb : (step oracle s).feedback = "INVALID: wrong function name" := by rw [hstep]
    have hst : (step oracle s).validation_status = "INVALID" := by rw [hstep]
    have hmax : (step oracle s).max_iterations = 3 := by
      rw [step_max_iterations]; exact h3
    have hq : (step oracle s).query = s.query := by rw [hstep]; simp [generator_node]
    refine ⟨hit, hfb, ?_, ?_, ?_⟩
    · unfold should_continue
      rw [hst, hit, hmax]
      rw [if_neg (by decide), if_neg (by omega)]
    · have hp : (generator_call (step oracle s)).prompt
          = "Previous answer was marked as needing improvement.\n\nFeedback: "
              ++ "INVALID: wrong function name" ++ "\n\nOriginal question: "
              ++ (step oracle s).query
              ++ "\n\nPlease provide an improved, complete answer addressing the feedback." := by
        simp [generator_call, generatorPrompt, hfb]
      exact ⟨"Previous answer was marked as needing improvement.\n\nFeedback: ",
        "\n\nOriginal question: " ++ (step oracle s).query
          ++ "\n\nPlease provide an improved, complete answer addressing the feedback.",
        by simp only [hp, String.append_assoc]⟩
    · have hp : (generator_call (step oracle s)).prompt
          = "Previous answer was marked as needing improvement.\n\nFeedback: "
              ++ "INVALID: wrong function name" ++ "\n\nOriginal question: "
              ++ s.query
              ++ "\n\nPlease provide an improved, complete answer addressing the feedback." := by
        simp [generator_call, generatorPrompt, hfb, hq]
      exact ⟨"Previous answer was marked as needing improvement.\n\nFeedback: "
          ++ "INVALID: wrong function name" ++ "\n\nOriginal question: ",
        "\n\nPlease provide an improved, complete answer addressing the feedback.",
        by simp only [hp, String.append_assoc]⟩

/-! ## Concrete demonstration stream for the extraction claims -/

/-- A `tool_use` event line as it appears in the stream-json sink. -/
def demoLine1 : String := "\x7b\"type\": \"tool_use\", \"name\": \"Read\"\x7d"

/-- A second `tool_use` event line. -/
def demoLine2 : String := "\x7b\"type\": \"tool_use\", \"name\": \"Grep\"\x7d"

/-- The terminal `result` event line carrying the payload "Answer text". -/
def demoLine3 : String := "\x7b\"type\": \"result\", \"result\": \"Answer text\"\x7d"

/-- The decoder restricted to the three demonstration lines (what
`json.loads` returns on each of them). -/
def demoDecode : Decoder := fun l =>
  if l == demoLine1 then some ⟨[("type", "tool_use"), ("name", "Read")]⟩
  else if l == demoLine2 then some ⟨[("type", "tool_use"), ("name", "Grep")]⟩
  else if l == demoLine3 then some ⟨[("type", "result"), ("result", "Answer text")]⟩
  else none

/-- Sink content: two tool-use events followed by the result event. -/
def demoSink : List String := [demoLine1, demoLine2, demoLine3]

/-- A decoder whose only line parses as a `result`-typed event that lacks
the `"result"` payload field. -/
def demoNoPayloadDecode : Decoder := fun l =>
  if l == demoLine3 then some ⟨[("type", "result")]⟩ else none

/-! ## Claims about result extraction -/

/-- C5: result extraction scans the sink lines from the end toward the
start, skipping blank lines, lines not beginning with an opening brace and
lines that fail to parse, and returns the payload of the most recent
`result`-typed event; the last-written `result` event wins; extraction is
a pure function of the sink content; and a sink holding tool_use,
tool_use, then a result event with payload "Answer text" yields exactly
"Answer text". -/
theorem claim_C5 (decode : Decoder) (lines : List String) :
    parse_result decode (some lines)
        = ((lines.reverse.findSome? (lineResult? decode)).getD "")
    ∧ (∀ c₁ c₂ : Option (List String), c₁ = c₂ →
        parse_result decode c₁ = parse_result decode c₂)
    ∧ (∀ (xs ys : List String) (r p : String),
        lineResult? decode r = some p →
        (∀ y ∈ ys, lineResult? decode y = none) →
        parse_result decode (some (xs ++ r :: ys)) = p)
    ∧ parse_result demoDecode (some demoSink) = "Answer text" := by
  refine ⟨?_, ?_, ?_, ?_⟩
  · unfold parse_result
    exact scanLines_eq_findSome decode lines.reverse
  · intro c₁ c₂ h
    rw [h]
  · intro xs ys r p hr hy
    show scanLines decode (xs ++ r :: ys).reverse = p
    rw [scanLines_eq_findSome]
    rw [List.reverse_append, List.reverse_cons, List.append_assoc,
      List.singleton_append]
    rw [findSome?_append_none (fun y hyz => hy y (List.mem_reverse.mp hyz))]
    rw [findSome?_cons_some hr]
    rfl
  · decide

/-- C10: result extraction is total — it returns a string for every sink
content, including an unreadable sink (empty string); when no line parses
as a `result`-typed event it returns the empty string; and when the most
recent `result`-typed event lacks the `"result"` payload field, the scan
stops there and returns the empty string, indistinguishable from a stream
with no result at all. -/
theorem claim_C10 (decode : Decoder) :
    parse_result decode none = ""
    ∧ (∀ lines : List String,
        (∀ l ∈ lines, ∀ ev, decode (pystrip l) = some ev
            → ev.get "type" ≠ some "result") →
        parse_result decode (some lines) = "")
    ∧ (∀ (l : String) (rest : List String) (ev : StreamEvent),
        ((pystrip l == "") || !(pystartswith (pystrip l) "\x7b")) = false →
        decode (pystrip l) = some ev →
        ev.get "type" = some "result" →
        ev.get "result" = none →
        scanLines decode (l :: rest) = ""
          ∧ scanLines decode (l :: rest) = parse_result decode (some [])) := by
  refine ⟨rfl, ?_, ?_⟩
  · intro lines hno
    have hall : ∀ l ∈ lines, lineResult? decode l = none := by
      intro l hl
      simp only [lineResult?]
      by_cases hb : ((pystrip l == "") || !(pystartswith (pystrip l) "\x7b")) = true
      · rw [if_pos hb]
      · rw [if_neg hb]
        cases hd : decode (pystrip l) with
        | none => rfl
        | some ev =>
          dsimp only
          rw [if_neg]
          simp only [beq_iff_eq]
          exact hno l hl ev hd
    show scanLines decode lines.reverse = ""
    rw [scanLines_eq_findSome]
    have : lines.reverse.findSome? (lineResult? decode) = none := by
      rw [List.findSome?_eq_none_iff]
      intro l hl
      exact hall l (List.mem_reverse.mp hl)
    rw [this]
    rfl
  · intro l rest ev hb hd ht hres
    have hmain : scanLines decode (l :: rest) = "" := by
      simp only [scanLines]
      rw [if_neg (by simp [hb]), hd]
      dsimp only
      rw [if_pos (by simp [ht]), hres]
      rfl
    exact ⟨hmain, hmain⟩

/-! ## Claims about the invocation operation -/

/-- C6: on timeout, `call` returns the triple (a text stating the resolved
timeout value, the elapsed duration, exit code -1); with an explicit
timeout of 5 the text is exactly "Error: Timed out after 5s"; and the sink
footer written for the invocation is the TIMEOUT marker, never a normal
completion line. -/
theorem claim_C6 (cfg : AgentConfig) (decode : Decoder)
    (prompt repo_path task_id node : String)
    (max_turns? timeout? : Option Nat) (elapsed : Rat) :
    (ClaudeAgent.call cfg decode prompt repo_path task_id node max_turns? timeout?
        (SpawnOutcome.timedOut elapsed)).1
      = ("Error: Timed out after "
          ++ toString (resolveOverride timeout? cfg.timeout) ++ "s", elapsed, -1)
    ∧ (ClaudeAgent.call cfg decode prompt repo_path task_id node max_turns? timeout?
        (SpawnOutcome.timedOut elapsed)).2
      = [SinkWrite.header node repo_path prompt,
         SinkWrite.footer (FooterKind.timeoutMark elapsed)]
    ∧ (timeout? = some 5 →
        (ClaudeAgent.call cfg decode prompt repo_path task_id node max_turns? timeout?
          (SpawnOutcome.timedOut elapsed)).1.1 = "Error: Timed out after 5s")
    ∧ (∀ (d : Rat) (e : Int),
        SinkWrite.footer (FooterKind.completed d e)
          ∉ (ClaudeAgent.call cfg decode prompt repo_path task_id node max_turns?
              timeout? (SpawnOutcome.timedOut elapsed)).2) := by
  refine ⟨rfl, rfl, ?_, ?_⟩
  · intro h
    subst h
    have h1 : (ClaudeAgent.call cfg decode prompt repo_path task_id node max_turns?
        (some 5) (SpawnOutcome.timedOut elapsed)).1.1
        = "Error: Timed out after "
            ++ toString (resolveOverride (some 5) cfg.timeout) ++ "s" := rfl
    rw [h1, show resolveOverride (some 5) cfg.timeout = 5 from rfl]
    decide
  · intro d e
    simp [ClaudeAgent.call]

/-- C7: no exception escapes the invoke operation — every spawn outcome
yields a result triple; when the tool binary is missing at the configured
path the returned text contains that path, the duration is 0 and the exit
code is -1, with only the header written (no child was spawned); any other
spawn or runtime fault returns a generic diagnostic with exit code -1 and
the elapsed time up to the fault. -/
theorem claim_C7 (cfg : AgentConfig) (decode : Decoder)
    (prompt repo_path task_id node : String) (max_turns? timeout? : Option Nat) :
    (∀ w : SpawnOutcome, ∃ text dur code writes,
        ClaudeAgent.call cfg decode prompt repo_path task_id node max_turns? timeout? w
          = ((text, dur, code), writes))
    ∧ ClaudeAgent.call cfg decode prompt repo_path task_id node max_turns? timeout?
        SpawnOutcome.fileNotFound
        = (("Error: Claude CLI not found at " ++ cfg.claude_path, 0, -1),
           [SinkWrite.header node repo_path prompt])
    ∧ (∃ a b, ("Error: Claude CLI not found at " ++ cfg.claude_path : String)
        = a ++ cfg.claude_path ++ b)
    ∧ (∀ (msg : String) (elapsed : Rat),
        ClaudeAgent.call cfg decode prompt repo_path task_id node max_turns? timeout?
          (SpawnOutcome.otherFault msg elapsed)
          = (("Error: " ++ msg, elapsed, -1),
             [SinkWrite.header node repo_path prompt])) := by
  refine ⟨?_, rfl, ?_, fun msg elapsed => rfl⟩
  · intro w
    cases w <;> exact ⟨_, _, _, _, rfl⟩
  · exact ⟨"Error: Claude CLI not found at ", "",
      by rw [String.append_empty]⟩

theorem error_append_ne_empty (x : String) : ("Error: " ++ x) ≠ "" := by
  intro h
  have hd := congrArg String.data h
  rw [String.data_append] at hd
  simp [String.data] at hd

/-- C8: when the child exits non-zero and extraction yields the empty
string, the returned result text falls back to the trimmed standard-error
content (prefixed with "Error: ") or to the generic "Unknown error" marker
when standard error is empty, so the caller always receives a non-empty
diagnostic string for a failed step. -/
theorem claim_C8 (cfg : AgentConfig) (decode : Decoder)
    (prompt repo_path task_id node : String) (max_turns? timeout? : Option Nat)
    (stderr : String) (exit_code : Int) (elapsed : Rat) (sink : Option (List String))
    (hec : exit_code ≠ 0)
    (hparse : parse_result decode sink = "") :
    (ClaudeAgent.call cfg decode prompt repo_path task_id node max_turns? timeout?
        (SpawnOutcome.completed stderr exit_code elapsed sink)).1.1
      = (if stderr ≠ "" then "Error: " ++ pystrip stderr else "Unknown error")
    ∧ (ClaudeAgent.call cfg decode prompt repo_path task_id node max_turns? timeout?
        (SpawnOutcome.completed stderr exit_code elapsed sink)).1.1 ≠ "" := by
  have hout : (ClaudeAgent.call cfg decode prompt repo_path task_id node max_turns?
      timeout? (SpawnOutcome.completed stderr exit_code elapsed sink)).1.1
      = (if stderr ≠ "" then "Error: " ++ pystrip stderr else "Unknown error") := by
    simp only [ClaudeAgent.call]
    rw [if_pos ⟨hec, hparse⟩]
  refine ⟨hout, ?_⟩
  rw [hout]
  by_cases hs : stderr ≠ ""
  · rw [if_pos hs]
    exact error_append_ne_empty _
  · rw [if_neg hs]
    decide

/-! ## Concrete runs used as witnesses -/

/-- An oracle whose every invocation returns the verdict "VALID". -/
def demoOracleValid : Oracle := fun _ => "VALID"

/-- An oracle whose every invocation returns an INVALID verdict. -/
def demoOracleInvalid : Oracle := fun _ => "INVALID: wrong function name"

/-- The seed state with the bound lowered to one iteration. -/
def demoMax1State : AgentState :=
  { initState "q" "repo" "tid" with max_iterations := 1 }

/-- A post-VALIDATE state carrying an INVALID verdict on iteration 1. -/
def demoInvalidState : AgentState :=
  { initState "q" "repo" "tid" with validation_status := "INVALID" }

/-- The default configuration values of `ClaudeAgent.__init__`. -/
def demoCfg : AgentConfig :=
  { claude_path := "/opt/homebrew/bin/claude", max_turns := 5, timeout := 300 }

theorem demo_roundStarts_valid :
    roundStarts demoOracleValid (initState "q" "repo" "tid")
      = [initState "q" "repo" "tid"] := by
  rw [roundStarts]
  rw [dif_pos (show should_continue (step demoOracleValid (initState "q" "repo" "tid"))
      = "end" by decide)]

theorem demo_traceAfters_len :
    0 < (traceAfters demoOracleValid (initState "q" "repo" "tid")).length := by
  rw [traceAfters, demo_roundStarts_valid]
  simp

/-- Witness for C1 at a concrete run: one VALID round. -/
theorem claim_C1_witness :
    ∃ hk : 0 < (traceAfters demoOracleValid (initState "q" "repo" "tid")).length,
      ((traceAfters demoOracleValid (initState "q" "repo" "tid")).get ⟨0, hk⟩).iteration
        = 1 + ((traceAfters demoOracleValid (initState "q" "repo" "tid")).take 1).countP
            (fun u => u.validation_status != "VALID") :=
  ⟨demo_traceAfters_len,
   (claim_C1 demoOracleValid "q" "repo" "tid").2.2 0 demo_traceAfters_len⟩

/-- Witness for C2 at concrete states: an INVALID verdict below the bound
re-enters the generator, and a max-iterations-1 run executes exactly one
round. -/
theorem claim_C2_witness :
    should_continue demoInvalidState = "generator"
    ∧ roundStarts demoOracleInvalid demoMax1State = [demoMax1State]
    ∧ runCalls demoOracleInvalid demoMax1State
        = [generator_call demoMax1State,
           validator_call (generator_node demoOracleInvalid demoMax1State)] :=
  ⟨(claim_C2.1 demoInvalidState).2 (by decide),
   (claim_C2.2.2 demoOracleInvalid demoMax1State rfl rfl).1,
   (claim_C2.2.2 demoOracleInvalid demoMax1State rfl rfl).2⟩

/-- Witness for C3 at a concrete run. -/
theorem claim_C3_witness :
    (initState "q" "repo" "tid").iteration ≤ 3
    ∧ run_review_critique demoOracleValid "q" "repo" "tid"
        = demoOracleValid (generator_call
            ((roundStarts demoOracleValid (initState "q" "repo" "tid")).getLastD
              (initState "q" "repo" "tid"))) :=
  ⟨(claim_C3 demoOracleValid "q" "repo" "tid").2.2.1 _
      (by rw [demo_roundStarts_valid]; exact List.mem_singleton.mpr rfl),
   (claim_C3 demoOracleValid "q" "repo" "tid").1⟩

/-- Witness for C4 at concrete verdicts. -/
theorem claim_C4_witness :
    parseValidation "INVALID: wrong function name"
        = ("INVALID", "INVALID: wrong function name")
    ∧ parseValidation "partial: missing detail"
        = ("PARTIAL", "partial: missing detail") :=
  ⟨claim_C4.2.1 _ (by decide), claim_C4.2.2.1 _ (by decide)⟩

/-- Witness for C5: the most recent result event wins even with a
non-result line after it. -/
theorem claim_C5_witness :
    parse_result demoDecode (some ([demoLine1] ++ demoLine3 :: [demoLine2]))
      = "Answer text" :=
  (claim_C5 demoDecode []).2.2.1 [demoLine1] [demoLine2] demoLine3 "Answer text"
    (by decide) (by decide)

/-- Witness for C6 at the concrete 5-second timeout. -/
theorem claim_C6_witness :
    (ClaudeAgent.call demoCfg demoDecode "p" "repo" "tid" "generator_v1" none (some 5)
        (SpawnOutcome.timedOut 5)).1.1 = "Error: Timed out after 5s" :=
  (claim_C6 demoCfg demoDecode "p" "repo" "tid" "generator_v1" none (some 5) 5).2.2.1 rfl

/-- Witness for C8 at a concrete failed invocation with trailing-space
standard error. -/
theorem claim_C8_witness :
    (ClaudeAgent.call demoCfg demoDecode "p" "repo" "tid" "validator_v1" none none
        (SpawnOutcome.completed "boom " 2 1 (some []))).1.1 = "Error: boom"
    ∧ (ClaudeAgent.call demoCfg demoDecode "p" "repo" "tid" "validator_v1" none none
        (SpawnOutcome.completed "boom " 2 1 (some []))).1.1 ≠ "" := by
  have h := claim_C8 demoCfg demoDecode "p" "repo" "tid" "validator_v1" none none
    "boom " 2 1 (some []) (by decide) rfl
  exact ⟨h.1.trans (by decide), h.2⟩

/-- Witness for C9 at the concrete INVALID-verdict scenario. -/
theorem claim_C9_witness :
    (step demoOracleInvalid (initState "q" "repo" "tid")).iteration = 2
    ∧ (step demoOracleInvalid (initState "q" "repo" "tid")).feedback
        = "INVALID: wrong function name"
    ∧ should_continue (step demoOracleInvalid (initState "q" "repo" "tid"))
        = "generator" := by
  have h := claim_C9.2.2.2 demoOracleInvalid (initState "q" "repo" "tid") rfl rfl rfl
  exact ⟨h.1, h.2.1, h.2.2.1⟩

/-- Witness for C10: a result event without payload extracts the empty
string, and an unreadable sink extracts the empty string. -/
theorem claim_C10_witness :
    scanLines demoNoPayloadDecode (demoLine3 :: []) = ""
    ∧ parse_result demoDecode none = "" :=
  ⟨((claim_C10 demoNoPayloadDecode).2.2 demoLine3 [] ⟨[("type", "result")]⟩
      (by decide) (by decide) (by decide) (by decide)).1,
   (claim_C10 demoDecode).1⟩

end RepoAgent
